import Mathlib

/-!
Verification of the option-resolution layer of CoubDownloader's GUI front
end (`coub-gui.py`). The Python source is embedded shallowly: dictionaries
become functions into `Option`, Python lists with (possibly negative)
indexing become `List` with an explicit index function, comma-splitting of
free-text fields becomes `String.splitOn`, and the filesystem is a
parameter `String → Option String` (path to file content, `none` when the
path does not exist).
-/

namespace CoubGui

/-! ## Label tables

`GuiDefaultOptions` (class body, `coub-gui.py` lines 34-42) declares the
code→label direction; `translate_to_cli` (lines 63-71) declares the
label→code direction. -/

/-- `GuiDefaultOptions.QUALITY_LABEL = ["Worst quality", "Best quality"]`
(a Python list, indexed by the internal quality code). -/
def GuiDefaultOptions.QUALITY_LABEL : List String :=
  ["Worst quality", "Best quality"]

/-- `GuiDefaultOptions.AAC_LABEL = ["Only MP3", "No Bias", "Prefer AAC", "Only AAC"]`. -/
def GuiDefaultOptions.AAC_LABEL : List String :=
  ["Only MP3", "No Bias", "Prefer AAC", "Only AAC"]

/-- `GuiDefaultOptions.RECOUB_LABEL = ["No Recoubs", "With Recoubs", "Only Recoubs"]`. -/
def GuiDefaultOptions.RECOUB_LABEL : List String :=
  ["No Recoubs", "With Recoubs", "Only Recoubs"]

/-- `GuiDefaultOptions.SPECIAL_LABEL`: the Python dict from boolean triples
`(share, video_only, audio_only)` to display labels; a key outside the four
listed triples raises `KeyError`, modelled as `none`. -/
def GuiDefaultOptions.SPECIAL_LABEL : Bool × Bool × Bool → Option String
  | (false, false, false) => some "None"
  | (true, false, false) => some "Share"
  | (false, true, false) => some "Video only"
  | (false, false, true) => some "Audio only"
  | _ => none

/-- Python list indexing `l[i]` with negative-index wrap-around:
`l[-1]` is the last element; an index out of range raises, modelled as
`none`. -/
def pyIndex (l : List String) (i : Int) : Option String :=
  let j : Int := if i < 0 then (l.length : Int) + i else i
  if j < 0 then none else l.get? j.toNat

/-- `translate_to_cli`'s `QUALITY_LABEL` dict: display label → internal
quality code (`0` worst/first, `-1` best/last). -/
def translate_to_cli.QUALITY_LABEL (s : String) : Option Int :=
  if s = "Worst quality" then some 0
  else if s = "Best quality" then some (-1)
  else none

/-- `translate_to_cli`'s `AAC_LABEL` dict: display label → ordinal AAC-bias
code. -/
def translate_to_cli.AAC_LABEL (s : String) : Option Int :=
  if s = "Only MP3" then some 0
  else if s = "No Bias" then some 1
  else if s = "Prefer AAC" then some 2
  else if s = "Only AAC" then some 3
  else none

/-- `translate_to_cli`'s `RECOUB_LABEL` dict: display label → recoub-policy
code. -/
def translate_to_cli.RECOUB_LABEL (s : String) : Option Int :=
  if s = "No Recoubs" then some 0
  else if s = "With Recoubs" then some 1
  else if s = "Only Recoubs" then some 2
  else none

/-- `translate_to_cli`'s `SPECIAL_LABEL` dict: display label →
`(share, v_only, a_only)` boolean triple. -/
def translate_to_cli.SPECIAL_LABEL (s : String) : Option (Bool × Bool × Bool) :=
  if s = "None" then some (false, false, false)
  else if s = "Share" then some (true, false, false)
  else if s = "Video only" then some (false, true, false)
  else if s = "Audio only" then some (false, false, true)
  else none

/-- Round trip of a quality label: label → code (dict in `translate_to_cli`)
→ label (list in `GuiDefaultOptions`, Python indexing). -/
def qualityRound (s : String) : Option String :=
  (translate_to_cli.QUALITY_LABEL s).bind (pyIndex GuiDefaultOptions.QUALITY_LABEL)

/-- Round trip of an AAC-bias label through code and back. -/
def aacRound (s : String) : Option String :=
  (translate_to_cli.AAC_LABEL s).bind (pyIndex GuiDefaultOptions.AAC_LABEL)

/-- Round trip of a recoub-policy label through code and back. -/
def recoubRound (s : String) : Option String :=
  (translate_to_cli.RECOUB_LABEL s).bind (pyIndex GuiDefaultOptions.RECOUB_LABEL)

/-- Round trip of a special-format label through its boolean triple and back. -/
def specialRound (s : String) : Option String :=
  (translate_to_cli.SPECIAL_LABEL s).bind GuiDefaultOptions.SPECIAL_LABEL

/-- Round trip of a boolean triple through its label and back. -/
def specialTripleRound (t : Bool × Bool × Bool) : Option (Bool × Bool × Bool) :=
  (GuiDefaultOptions.SPECIAL_LABEL t).bind translate_to_cli.SPECIAL_LABEL

/-! ## Input descriptor parsing

`parse_cli`, `coub-gui.py` lines 273-286. Each free-text field is split on a
comma and filtered by Python string truthiness (`if u`), which drops exactly
the empty tokens; survivors are wrapped in the input-container classes from
`coub`, except the ids field whose tokens are appended as bare strings, and
the urls field whose tokens go through `coub.mapped_input`. -/

/-- Python string truthiness: a `str` is truthy iff non-empty. -/
def pyTruthyStr (s : String) : Bool := s ≠ ""

/-- Python `str.split(sep)` for a one-character separator, on the character
list: every occurrence of `sep` is a cut point and empty segments are kept,
so the result always has one more segment than there are separators
(`"".split(",") == [""]`). -/
def pySplit (sep : Char) : List Char → List (List Char)
  | [] => [[]]
  | c :: cs =>
    match pySplit sep cs with
    | [] => [[]]
    | t :: ts => if c = sep then [] :: t :: ts else (c :: t) :: ts

/-- Python `field.split(",")` on strings. -/
def pySplitComma (s : String) : List String :=
  (pySplit ',' s.data).map String.mk

/-- The comprehension pattern `[t for t in field.split(",") if t]` shared by
all eight free-text fields. -/
def splitField (field : String) : List String :=
  (pySplitComma field).filter pyTruthyStr

/-- An element of the heterogeneous Python list `args.input`:
`rawString` is a bare `str` (the ids field appends tokens unwrapped), the
other payload-carrying constructors are the `coub` container classes, and
`hotSection`/`randomCategory` are the parameterless containers. -/
inductive InputItem where
  | rawString (s : String)
  | linkList (s : String)
  | channel (s : String)
  | tag (s : String)
  | search (s : String)
  | community (s : String)
  | story (s : String)
  | hotSection
  | randomCategory
  deriving DecidableEq, Repr

/-- Whether an `InputItem` is one of the typed `coub` container classes
carrying a string payload (so neither a bare string nor one of the
parameterless `HotSection`/`RandomCategory` containers). -/
def InputItem.isTypedDescriptor : InputItem → Bool
  | .linkList _ => true
  | .channel _ => true
  | .tag _ => true
  | .search _ => true
  | .community _ => true
  | .story _ => true
  | _ => false

/-- The raw values of the fields that feed `args.input`: the eight free-text
fields, the `--hot` checkbox, and the `--random` count (`none` when the
option never appeared). -/
structure RawInputArgs where
  urls : String
  ids : String
  lists : String
  channels : String
  tags : String
  searches : String
  communities : String
  stories : String
  hot : Bool
  random : Option Nat
  deriving Repr

/-- Python truthiness of `args.random` (`None` and `0` are falsy). -/
def pyTruthyCount : Option Nat → Bool
  | none => false
  | some n => n ≠ 0

/-- `args.input` as built by `parse_cli` lines 273-286: the sequential
`extend`/`append` calls, in source order. `mi` is the external
`coub.mapped_input` collaborator applied to each url token. -/
def buildInput (mi : String → InputItem) (a : RawInputArgs) : List InputItem :=
  ((splitField a.urls).map mi)
  ++ ((splitField a.ids).map InputItem.rawString)
  ++ ((splitField a.lists).map InputItem.linkList)
  ++ ((splitField a.channels).map InputItem.channel)
  ++ ((splitField a.tags).map InputItem.tag)
  ++ ((splitField a.searches).map InputItem.search)
  ++ ((splitField a.communities).map InputItem.community)
  ++ ((splitField a.stories).map InputItem.story)
  ++ (if a.hot then [InputItem.hotSection] else [])
  ++ (if pyTruthyCount a.random then
        (List.range (a.random.getD 0)).map (fun _ => InputItem.randomCategory)
      else [])

/-! ## Archive loading

`parse_cli`, lines 289-293: `if args.archive and os.path.exists(args.archive):`
read the file and collect `{l.strip() for l in f}`, else the empty set. The
filesystem is modelled as a map from path to file content (`none` when the
path does not exist); the loader only consults it, so it can neither create
nor write any file. -/

/-- Python file iteration: the lines of a file's content, each keeping its
trailing newline; a final segment without a newline is kept unless empty
(so `"a\nb"` has lines `"a\n"` and `"b"`, and `""` has no lines). Input is
the newline-split segments of the content. -/
def pyLinesAux : List (List Char) → List String
  | [] => []
  | [last] => if last = [] then [] else [String.mk last]
  | seg :: rest => String.mk (seg ++ ['\n']) :: pyLinesAux rest

/-- The lines of a file content, Python iteration semantics. -/
def pyLines (s : String) : List String :=
  pyLinesAux (pySplit '\n' s.data)

/-- Python `str.isspace` on the ASCII whitespace characters recognised by
`str.strip()`. -/
def pyIsSpace (c : Char) : Bool :=
  c = ' ' || c = '\t' || c = '\n' || c = '\r' || c = '\x0b' || c = '\x0c'

/-- Python `str.strip()`: remove whitespace from both ends. -/
def pyStrip (s : String) : String :=
  String.mk (((s.data.dropWhile pyIsSpace).reverse.dropWhile pyIsSpace).reverse)

/-- `args.archive_content` (lines 289-293): the set comprehension
`{l.strip() for l in f}` when the archive path is truthy and exists,
otherwise the empty set. -/
def archive_content (archive : Option String) (fs : String → Option String) :
    Finset String :=
  match archive with
  | none => ∅
  | some p =>
    if p = "" then ∅
    else
      match fs p with
      | none => ∅
      | some content => ((pyLines content).map pyStrip).toFinset

/-! ## Option normalization

`parse_cli`, lines 294-305: three context-free rewrites on the parsed
option fields. Fields are kept at their Python dynamic types: the naming
template and the fallback character can hold `None` (`Option String`),
the tag separator is always a string. -/

/-- The option fields touched by the normalization rewrites. -/
structure OptState where
  name_template : Option String
  tag_sep : String
  fallback_char : Option String
  deriving DecidableEq, Repr

/-- Lines 296-297: `if args.name_template == "%id%": args.name_template = None`. -/
def rule_name_template (o : OptState) : OptState :=
  { o with name_template :=
      if o.name_template = some "%id%" then none else o.name_template }

/-- Lines 300-301: `if args.tag_sep == "space": args.tag_sep = " "`. -/
def rule_tag_sep (o : OptState) : OptState :=
  { o with tag_sep := if o.tag_sep = "space" then " " else o.tag_sep }

/-- Lines 302-305: `if args.fallback_char is None: args.fallback_char = ""`,
`elif args.fallback_char == "space": args.fallback_char = " "`. -/
def rule_fallback_char (o : OptState) : OptState :=
  { o with fallback_char :=
      match o.fallback_char with
      | none => some ""
      | some s => if s = "space" then some " " else some s }

/-- The full normalization pass, rules in source order. -/
def normalize_opts (o : OptState) : OptState :=
  rule_fallback_char (rule_tag_sep (rule_name_template o))

/-! ## GUI default corrections

`GuiDefaultOptions.__init__`, lines 50-58: after the layered defaults are
loaded, the prompt behavior is forced into `{"yes", "no"}` and a
non-absolute output path is replaced by `os.path.join(os.path.expanduser("~"),
"coubs")`. POSIX path semantics are embedded explicitly. -/

/-- `os.path.isabs` (POSIX): a path is absolute iff it begins with `"/"`. -/
def isabs (p : String) : Bool :=
  match p.data with
  | '/' :: _ => true
  | _ => false

/-- `os.path.join(a, b)` (POSIX): an absolute second component replaces the
first; otherwise the separator is inserted unless the first component is
empty or already ends in one. -/
def pjoin (a b : String) : String :=
  if isabs b then b
  else if a = "" || a.data.getLast? = some '/' then a ++ b
  else a ++ "/" ++ b

/-- Lines 52-53: `if self.PROMPT not in {"yes", "no"}: self.PROMPT = "no"`.
The raw default may be unset (`None`), which is also outside the set. -/
def correct_prompt (prompt : Option String) : Option String :=
  if prompt = some "yes" ∨ prompt = some "no" then prompt else some "no"

/-- Lines 57-58: `if not os.path.isabs(self.PATH): self.PATH =
os.path.join(os.path.expanduser("~"), "coubs")`, with the expanded home
directory passed in as `home`. -/
def correct_path (path home : String) : String :=
  if isabs path then path else pjoin home "coubs"

/-! ## Deferred configuration-error exit

`parse_cli`, lines 128, 129-265, 267, 270-271 and 273-307: the defaults
object and the Gooey form are constructed and the arguments parsed before
the deferred error flag is checked; only then does the process exit with
`coub.ExitCodes.OPT`, before any input descriptor is built. The control
flow is embedded as the list of observable steps the function performs. -/

/-- Modelled from the spec: `coub.ExitCodes` lives in the engine module,
which is not under `src/`; the spec requires only a dedicated option-error
status (`OPT`) distinct from the engine's own runtime exit statuses. -/
inductive ExitCode where
  | opt
  | engineRuntime
  deriving DecidableEq, Repr

/-- One observable step of `parse_cli`. -/
inductive Step where
  | buildDefaults
  | buildGui
  | parseArgs
  | exitWith (c : ExitCode)
  | buildInputSeq
  | loadArchive
  | normalizeOpts
  | translateReturn
  deriving DecidableEq, Repr

/-- The step sequence of `parse_cli`: construct the defaults object (line
128), build the Gooey form (129-265), parse the arguments (267), then check
the deferred error flag (270-271) — exiting with the option-error status if
it is set — and otherwise build the input descriptors (273-286), load the
archive (289-293), normalize the options (294-305) and return the
translated result (307). -/
def parse_cli_steps (error : Bool) : List Step :=
  [Step.buildDefaults, Step.buildGui, Step.parseArgs] ++
  (if error then [Step.exitWith ExitCode.opt]
   else [Step.buildInputSeq, Step.loadArchive, Step.normalizeOpts,
         Step.translateReturn])

end CoubGui

namespace CoubGui

/-- C1: for each of the four label tables, every display label in the
table's declared domain maps to exactly one internal code, and mapping that
code back through the reverse table yields the same label; every boolean
triple in the special-format table's domain round-trips through its label;
and the two quality labels round-trip through the sentinel codes `0`
(worst/first) and `-1` (best/last, Python negative indexing). -/
theorem label_tables_round_trip :
    (∀ s ∈ GuiDefaultOptions.QUALITY_LABEL, qualityRound s = some s) ∧
    (∀ s ∈ GuiDefaultOptions.AAC_LABEL, aacRound s = some s) ∧
    (∀ s ∈ GuiDefaultOptions.RECOUB_LABEL, recoubRound s = some s) ∧
    (∀ s ∈ ["None", "Share", "Video only", "Audio only"],
      specialRound s = some s) ∧
    (∀ t : Bool × Bool × Bool, (GuiDefaultOptions.SPECIAL_LABEL t).isSome →
      specialTripleRound t = some t) ∧
    translate_to_cli.QUALITY_LABEL "Worst quality" = some 0 ∧
    translate_to_cli.QUALITY_LABEL "Best quality" = some (-1) := by
  refine ⟨?_, ?_, ?_, ?_, ?_, rfl, rfl⟩ <;> decide

/-- Witness for C1: the "Best quality" label round-trips through code `-1`,
and the `Share` triple round-trips through its label. -/
theorem label_tables_round_trip_witness :
    qualityRound "Best quality" = some "Best quality" ∧
    specialTripleRound (true, false, false) = some (true, false, false) := by
  refine ⟨?_, ?_⟩
  · exact label_tables_round_trip.1 "Best quality" (by decide)
  · exact label_tables_round_trip.2.2.2.2.1 (true, false, false) (by decide)

/-- Every token surviving the split of a free-text field is non-empty. -/
theorem splitField_mem_ne_empty {f t : String} (h : t ∈ splitField f) : t ≠ "" := by
  have := List.of_mem_filter h
  simpa [pyTruthyStr] using this

/-- Counterexample to C2: the field `", ,"` does not yield zero
descriptors — the whitespace-only token `" "` is non-empty, hence truthy,
and survives the filter. -/
theorem whitespace_only_field_not_empty :
    splitField ", ," = [" "] ∧ splitField ", ," ≠ [] := by
  decide

/-- C2 (amended): the parser splits a free-text field on the comma
separator, performs no trimming, and discards exactly the tokens that are
empty after the split; a field yields zero descriptors precisely when every
token of the split is empty — so a field of separators only (e.g. `",,,"`)
yields zero descriptors, while a whitespace token as in `", ,"` survives. -/
theorem split_discards_exactly_empty_tokens :
    (∀ f t : String, t ∈ splitField f ↔ t ∈ pySplitComma f ∧ t ≠ "") ∧
    (∀ f : String, splitField f = [] ↔ ∀ t ∈ pySplitComma f, t = "") ∧
    splitField ",,," = [] ∧
    splitField ", ," = [" "] := by
  refine ⟨?_, ?_, by decide, by decide⟩
  · intro f t
    simp [splitField, List.mem_filter, pyTruthyStr]
  · intro f
    simp [splitField, List.filter_eq_nil_iff, pyTruthyStr]

/-- Counterexample to C3: an identifier token is appended to `args.input`
as a bare untyped string (`coub-gui.py` line 275 wraps nothing around the
ids tokens), not as a typed descriptor. -/
theorem ids_are_bare_strings :
    buildInput InputItem.rawString
      ⟨"", "abc", "", "", "", "", "", "", false, none⟩ =
      [InputItem.rawString "abc"] ∧
    InputItem.isTypedDescriptor (InputItem.rawString "abc") = false := by
  constructor
  · rfl
  · rfl

/-- C3 (amended): every element of the final input sequence is either the
image of a non-empty url token under the external `mapped_input`
collaborator, the parameterless `HotSection` or `RandomCategory`, a bare
untyped string with non-empty payload (the ids field appends its tokens
unwrapped), or a typed descriptor carrying a non-empty string payload. -/
theorem input_elements_classified (mi : String → InputItem) (a : RawInputArgs)
    (x : InputItem) (hx : x ∈ buildInput mi a) :
    (∃ u, u ∈ splitField a.urls ∧ u ≠ "" ∧ x = mi u) ∨
    x = InputItem.hotSection ∨ x = InputItem.randomCategory ∨
    (∃ s, s ≠ "" ∧
      (x = InputItem.rawString s ∨ x = InputItem.linkList s ∨
       x = InputItem.channel s ∨ x = InputItem.tag s ∨
       x = InputItem.search s ∨ x = InputItem.community s ∨
       x = InputItem.story s)) := by
  simp only [buildInput, List.append_assoc, List.mem_append, List.mem_map] at hx
  rcases hx with hx | hx | hx | hx | hx | hx | hx | hx | hx | hx
  · obtain ⟨u, hu, rfl⟩ := hx
    exact Or.inl ⟨u, hu, splitField_mem_ne_empty hu, rfl⟩
  · obtain ⟨s, hs, rfl⟩ := hx
    exact Or.inr <| Or.inr <| Or.inr
      ⟨s, splitField_mem_ne_empty hs, Or.inl rfl⟩
  · obtain ⟨s, hs, rfl⟩ := hx
    exact Or.inr <| Or.inr <| Or.inr
      ⟨s, splitField_mem_ne_empty hs, Or.inr <| Or.inl rfl⟩
  · obtain ⟨s, hs, rfl⟩ := hx
    exact Or.inr <| Or.inr <| Or.inr
      ⟨s, splitField_mem_ne_empty hs, Or.inr <| Or.inr <| Or.inl rfl⟩
  · obtain ⟨s, hs, rfl⟩ := hx
    exact Or.inr <| Or.inr <| Or.inr
      ⟨s, splitField_mem_ne_empty hs,
        Or.inr <| Or.inr <| Or.inr <| Or.inl rfl⟩
  · obtain ⟨s, hs, rfl⟩ := hx
    exact Or.inr <| Or.inr <| Or.inr
      ⟨s, splitField_mem_ne_empty hs,
        Or.inr <| Or.inr <| Or.inr <| Or.inr <| Or.inl rfl⟩
  · obtain ⟨s, hs, rfl⟩ := hx
    exact Or.inr <| Or.inr <| Or.inr
      ⟨s, splitField_mem_ne_empty hs,
        Or.inr <| Or.inr <| Or.inr <| Or.inr <| Or.inr <| Or.inl rfl⟩
  · obtain ⟨s, hs, rfl⟩ := hx
    exact Or.inr <| Or.inr <| Or.inr
      ⟨s, splitField_mem_ne_empty hs,
        Or.inr <| Or.inr <| Or.inr <| Or.inr <| Or.inr <| Or.inr rfl⟩
  · split at hx <;> simp_all
  · split at hx <;> simp_all

/-- Witness for C3 (amended): the classification applied to the channel
descriptor built from a concrete one-token channels field. -/
theorem input_elements_classified_witness :
    (∃ u, u ∈ splitField "" ∧ u ≠ "" ∧ InputItem.channel "c" = InputItem.rawString u) ∨
    InputItem.channel "c" = InputItem.hotSection ∨
    InputItem.channel "c" = InputItem.randomCategory ∨
    (∃ s, s ≠ "" ∧
      (InputItem.channel "c" = InputItem.rawString s ∨
       InputItem.channel "c" = InputItem.linkList s ∨
       InputItem.channel "c" = InputItem.channel s ∨
       InputItem.channel "c" = InputItem.tag s ∨
       InputItem.channel "c" = InputItem.search s ∨
       InputItem.channel "c" = InputItem.community s ∨
       InputItem.channel "c" = InputItem.story s)) :=
  input_elements_classified InputItem.rawString
    ⟨"", "", "", "c", "", "", "", "", false, none⟩
    (InputItem.channel "c") (by decide)

/-- C5: if the archive path is set (and truthy) and the path exists, the
loader reads the file's lines, strips surrounding whitespace from each, and
collects them into a set, deduplicating silently — a file containing
`"id1\nid2\nid1\n"` yields exactly the two-element set `{"id1", "id2"}`; if
the path is unset or does not exist the result is the empty set; the loader
is a pure function of the filesystem, so it creates and writes nothing. -/
theorem archive_loading (fs : String → Option String) :
    archive_content none fs = ∅ ∧
    (∀ p, fs p = none → archive_content (some p) fs = ∅) ∧
    (∀ p c, p ≠ "" → fs p = some c →
      ∀ x, x ∈ archive_content (some p) fs ↔ ∃ l ∈ pyLines c, pyStrip l = x) ∧
    (∀ p, p ≠ "" → fs p = some "id1\nid2\nid1\n" →
      archive_content (some p) fs = {"id1", "id2"}) := by
  refine ⟨rfl, ?_, ?_, ?_⟩
  · intro p h
    by_cases hp : p = "" <;> simp [archive_content, hp, h]
  · intro p c hp hc x
    simp [archive_content, hp, hc]
  · intro p hp hc
    simp only [archive_content, hp, hc, if_neg hp]
    decide

/-- Witness for C5: on the filesystem holding `"id1\nid2\nid1\n"` at
`"/arc"` and nothing else, the loader deduplicates to `{"id1", "id2"}`,
returns `∅` for a missing path, and returns `∅` when no path is set. -/
theorem archive_loading_witness :
    archive_content (some "/arc")
        (fun p => if p = "/arc" then some "id1\nid2\nid1\n" else none) =
      {"id1", "id2"} ∧
    archive_content (some "/missing")
        (fun p => if p = "/arc" then some "id1\nid2\nid1\n" else none) = ∅ ∧
    archive_content none
        (fun p => if p = "/arc" then some "id1\nid2\nid1\n" else none) = ∅ := by
  have h := archive_loading
    (fun p => if p = "/arc" then some "id1\nid2\nid1\n" else none)
  exact ⟨h.2.2.2 "/arc" (by decide) rfl, h.2.1 "/missing" rfl, h.1⟩

/-- C6: the naming-template rewrite turns the raw value into the unset
sentinel `None` exactly when it equals the literal default token `"%id%"`;
any other value passes through unchanged, and the rewrite touches no other
field. -/
theorem name_template_default_becomes_none (o : OptState) (s : String)
    (h : o.name_template = some s) :
    ((rule_name_template o).name_template = none ↔ s = "%id%") ∧
    (s ≠ "%id%" → (rule_name_template o).name_template = some s) ∧
    (rule_name_template o).tag_sep = o.tag_sep ∧
    (rule_name_template o).fallback_char = o.fallback_char := by
  refine ⟨?_, ?_, rfl, rfl⟩
  · simp [rule_name_template, h]
  · intro hs
    simp [rule_name_template, h, hs]

/-- Witness for C6: the literal default token is rewritten to `none`, and a
user template `"%title%"` passes through unchanged. -/
theorem name_template_default_becomes_none_witness :
    (rule_name_template ⟨some "%id%", "_", none⟩).name_template = none ∧
    (rule_name_template ⟨some "%title%", "_", none⟩).name_template =
      some "%title%" := by
  constructor
  · exact (name_template_default_becomes_none ⟨some "%id%", "_", none⟩
      "%id%" rfl).1.mpr rfl
  · exact (name_template_default_becomes_none ⟨some "%title%", "_", none⟩
      "%title%" rfl).2.1 (by decide)

/-- C7: a tag-separator equal to the keyword `"space"` becomes a single
space and any other separator is unchanged; an unset fallback character
becomes the empty string, the keyword `"space"` becomes a single space, and
any other fallback value is unchanged. -/
theorem blank_keyword_normalization (o : OptState) :
    (o.tag_sep = "space" → (rule_tag_sep o).tag_sep = " ") ∧
    (o.tag_sep ≠ "space" → (rule_tag_sep o).tag_sep = o.tag_sep) ∧
    (o.fallback_char = none → (rule_fallback_char o).fallback_char = some "") ∧
    (o.fallback_char = some "space" →
      (rule_fallback_char o).fallback_char = some " ") ∧
    (∀ s, s ≠ "space" → o.fallback_char = some s →
      (rule_fallback_char o).fallback_char = some s) := by
  refine ⟨?_, ?_, ?_, ?_, ?_⟩
  · intro h; simp [rule_tag_sep, h]
  · intro h; simp [rule_tag_sep, h]
  · intro h; simp [rule_fallback_char, h]
  · intro h; simp [rule_fallback_char, h]
  · intro s hs h; simp [rule_fallback_char, h, hs]

/-- Witness for C7: the keyword and unset cases at concrete states. -/
theorem blank_keyword_normalization_witness :
    (rule_tag_sep ⟨none, "space", none⟩).tag_sep = " " ∧
    (rule_fallback_char ⟨none, "_", none⟩).fallback_char = some "" ∧
    (rule_fallback_char ⟨none, "_", some "space"⟩).fallback_char = some " " ∧
    (rule_fallback_char ⟨none, "_", some "-"⟩).fallback_char = some "-" := by
  refine ⟨?_, ?_, ?_, ?_⟩
  · exact (blank_keyword_normalization ⟨none, "space", none⟩).1 rfl
  · exact (blank_keyword_normalization ⟨none, "_", none⟩).2.2.1 rfl
  · exact (blank_keyword_normalization ⟨none, "_", some "space"⟩).2.2.2.1 rfl
  · exact (blank_keyword_normalization ⟨none, "_", some "-"⟩).2.2.2.2 "-"
      (by decide) rfl

/-- C8: the three normalization rewrites act on disjoint fields, so every
order of application gives the same result as the source order, and the
full normalization is idempotent — no rule's output re-triggers a rule. -/
theorem normalization_order_insensitive (o : OptState) :
    rule_name_template (rule_tag_sep (rule_fallback_char o)) = normalize_opts o ∧
    rule_name_template (rule_fallback_char (rule_tag_sep o)) = normalize_opts o ∧
    rule_tag_sep (rule_name_template (rule_fallback_char o)) = normalize_opts o ∧
    rule_tag_sep (rule_fallback_char (rule_name_template o)) = normalize_opts o ∧
    rule_fallback_char (rule_name_template (rule_tag_sep o)) = normalize_opts o ∧
    normalize_opts (normalize_opts o) = normalize_opts o := by
  obtain ⟨nt, ts, fc⟩ := o
  refine ⟨rfl, rfl, rfl, rfl, rfl, ?_⟩
  simp only [normalize_opts, rule_name_template, rule_tag_sep,
    rule_fallback_char, OptState.mk.injEq]
  refine ⟨?_, ?_, ?_⟩
  · split_ifs <;> simp_all
  · split_ifs <;> simp_all
  · rcases fc with _ | s
    · simp
    · by_cases hs : s = "space" <;> simp [hs]

/-- C4: the final input sequence is ordered by the fixed field precedence —
urls, ids, link lists, channels, tags, searches, communities, stories, one
`HotSection` when the hot flag is set, then exactly `N` `RandomCategory`
entries when the random count is `N` (and zero when it is unset or zero);
within each field the order of the field's tokens is preserved by `map`. -/
theorem input_field_precedence (mi : String → InputItem) (a : RawInputArgs) :
    buildInput mi a =
      ((splitField a.urls).map mi)
      ++ ((splitField a.ids).map InputItem.rawString)
      ++ ((splitField a.lists).map InputItem.linkList)
      ++ ((splitField a.channels).map InputItem.channel)
      ++ ((splitField a.tags).map InputItem.tag)
      ++ ((splitField a.searches).map InputItem.search)
      ++ ((splitField a.communities).map InputItem.community)
      ++ ((splitField a.stories).map InputItem.story)
      ++ (if a.hot then [InputItem.hotSection] else [])
      ++ List.replicate ((a.random).getD 0) InputItem.randomCategory := by
  unfold buildInput
  congr 9
  rcases a.random with _ | n
  · rfl
  · rcases Nat.eq_zero_or_pos n with rfl | hn
    · rfl
    · have : pyTruthyCount (some n) = true := by
        simp [pyTruthyCount, Nat.pos_iff_ne_zero.mp hn]
      rw [this]
      simp [List.map_const]

/-- C9: after the layered defaults are loaded, a prompt-behavior value
already in `{"yes", "no"}` is left unchanged and any other value is forced
to `"no"`; an absolute output path is left unchanged and a non-absolute one
is replaced by the `"coubs"` directory under the user's home — in
particular `"./out"` with home `"/home/user"` becomes
`"/home/user/coubs"`. -/
theorem gui_default_corrections (prompt : Option String) (path home : String) :
    ((prompt = some "yes" ∨ prompt = some "no") →
      correct_prompt prompt = prompt) ∧
    (prompt ≠ some "yes" → prompt ≠ some "no" →
      correct_prompt prompt = some "no") ∧
    (isabs path = true → correct_path path home = path) ∧
    (isabs path = false → correct_path path home = pjoin home "coubs") ∧
    correct_path "./out" "/home/user" = "/home/user/coubs" := by
  refine ⟨?_, ?_, ?_, ?_, by decide⟩
  · intro h; simp [correct_prompt, h]
  · intro h1 h2; simp [correct_prompt, h1, h2]
  · intro h; simp [correct_path, h]
  · intro h; simp [correct_path, h]

/-- Witness for C9: the corrections evaluated at a kept prompt `"yes"`, a
forced prompt `"maybe"`, a kept absolute path and the corrected relative
path. -/
theorem gui_default_corrections_witness :
    correct_prompt (some "yes") = some "yes" ∧
    correct_prompt (some "maybe") = some "no" ∧
    correct_path "/data/out" "/home/user" = "/data/out" ∧
    correct_path "./out" "/home/user" = "/home/user/coubs" := by
  refine ⟨?_, ?_, ?_, ?_⟩
  · exact (gui_default_corrections (some "yes") "" "").1 (Or.inl rfl)
  · exact (gui_default_corrections (some "maybe") "" "").2.1
      (by decide) (by decide)
  · exact (gui_default_corrections none "/data/out" "/home/user").2.2.1 rfl
  · exact (gui_default_corrections none "./out" "/home/user").2.2.2.2

/-- C10: when the deferred configuration-error flag is set, `parse_cli`
still constructs the defaults object and the form and still parses the
arguments, and only then terminates with the dedicated option-error exit
status — before any input descriptor is built, the archive is loaded, or
the translated command is returned; the option-error status is distinct
from the engine's runtime statuses. -/
theorem deferred_option_error_exit (error : Bool) (h : error = true) :
    parse_cli_steps error =
      [Step.buildDefaults, Step.buildGui, Step.parseArgs,
       Step.exitWith ExitCode.opt] ∧
    Step.buildInputSeq ∉ parse_cli_steps error ∧
    Step.loadArchive ∉ parse_cli_steps error ∧
    Step.translateReturn ∉ parse_cli_steps error ∧
    ExitCode.opt ≠ ExitCode.engineRuntime := by
  subst h
  exact ⟨rfl, by decide, by decide, by decide, by decide⟩

/-- Witness for C10: the error path evaluated at `error = true`. -/
theorem deferred_option_error_exit_witness :
    parse_cli_steps true =
      [Step.buildDefaults, Step.buildGui, Step.parseArgs,
       Step.exitWith ExitCode.opt] ∧
    Step.buildInputSeq ∉ parse_cli_steps true ∧
    Step.loadArchive ∉ parse_cli_steps true ∧
    Step.translateReturn ∉ parse_cli_steps true ∧
    ExitCode.opt ≠ ExitCode.engineRuntime :=
  deferred_option_error_exit true rfl

end CoubGui
